import Mathlib

/-
Shallow embedding of the driver lifecycle supervisor of go-openzwave
(src/api.go).  Go channels are modelled by numeric identities (the api
struct stores channel references, which Go copies by reference); the
concurrent control flow of Run is decomposed into its goroutines, each
modelled as a pure function producing a trace of the externally visible
actions it performs, in program order.  Native handles (C.Options,
C.Manager) are opaque numbers.
-/

/-- Identity of a Go channel value.  Copying an api value copies the
reference, not the channel, so two api copies with equal ids share one
channel. -/
abbrev ChanId := Nat

/-- Modelled from the spec: the configured default device identity.  The
constant `defaultDriverName` referenced by BuildAPI (src/api.go line 109)
is defined in a repository file outside src/; the spec says only that an
empty device string maps to a configured default, and gives
"/dev/ttyUSB0" as the example identity. -/
def defaultDriverName : String := "/dev/ttyUSB0"

/-- The api control block (src/api.go lines 35-41).  `options` and
`manager` are opaque native handles; `notifications` and `quit` are the
identities of the two channels allocated by BuildAPI. -/
structure api where
  options : Nat
  notifications : ChanId
  device : String
  quit : ChanId
  manager : Nat
deriving Repr, DecidableEq

/-- BuildAPI (src/api.go lines 97-112): allocates the control block.
`fresh` stands for the allocator state: `startOptions` yields handle
`fresh`, the notifications channel gets identity `fresh + 1` and the
quit channel identity `fresh + 2`; the manager handle starts null (0). -/
def BuildAPI (configPath : String) (userPath : String) (overrides : String)
    (fresh : Nat) : api :=
  { options := fresh
    notifications := fresh + 1
    device := defaultDriverName
    quit := fresh + 2
    manager := 0 }

/-- AddIntOption (src/api.go lines 115-121): mutates only the native
Options object and returns the receiver unchanged. -/
def api.AddIntOption (self : api) (option : String) (value : Int) : api :=
  self

/-- AddBoolOption (src/api.go lines 124-130): mutates only the native
Options object and returns the receiver unchanged. -/
def api.AddBoolOption (self : api) (option : String) (value : Bool) : api :=
  self

/-- SetDriver (src/api.go lines 133-138): overwrites the device identity
only when the argument is non-empty. -/
def api.SetDriver (self : api) (device : String) : api :=
  if device ≠ "" then { self with device := device } else self

/-- Notifications (src/api.go lines 298-300): returns the notifications
channel stored in the control block. -/
def api.Notifications (self : api) : ChanId :=
  self.notifications

/-- QuitSignal (src/api.go lines 302-304): returns the quit channel
stored in the control block. -/
def api.QuitSignal (self : api) : ChanId :=
  self.quit

/-- The only assignment Run ever performs on the api value: the monitor
goroutine stores the manager handle returned by `startManager`
(src/api.go line 193).  No other field is written after Run starts. -/
def api.runMonitorStart (self : api) (managerHandle : Nat) : api :=
  { self with manager := managerHandle }

/-- Outcome of `os.Stat` on the device path: `none` is success, otherwise
the error either satisfies `os.IsNotExist` or is some other error. -/
inductive StatError
  | notExist
  | other
deriving Repr, DecidableEq

/-- deviceExists (src/api.go lines 200-210): err == nil yields true;
os.IsNotExist(err) yields false; any other error yields true. -/
def deviceExists (statResult : Option StatError) : Bool :=
  match statResult with
  | none => true
  | some e =>
    match e with
    | StatError.notExist => false
    | StatError.other => true

/-- Action of a fired or armed timer callback. -/
inductive TimerAction
  | osExit (status : Nat)
  | raiseExit (value : Nat)
deriving Repr, DecidableEq

/-- Externally visible steps of the removal-executor goroutine
(src/api.go lines 244-262). -/
inductive ExecAction
  | recvStartQuit
  | armAbortTimer (seconds : Nat) (action : TimerAction)
  | callRemoveDriver
  | sendQuit
  | stopAbortTimer
  | printRemoveFailed
deriving Repr, DecidableEq

/-- The removal-executor goroutine (src/api.go lines 244-262), as the
trace of its actions in program order, as a function of the boolean
returned by the blocking `removeDriver` call: receive from startQuit;
arm a 5-second timer whose callback calls os.Exit(1); call removeDriver;
on success send on the quit channel and then stop the timer; on failure
only print a diagnostic, leaving the timer armed. -/
def removalExecutor (removeDriverResult : Bool) : List ExecAction :=
  [ExecAction.recvStartQuit,
   ExecAction.armAbortTimer 5 (TimerAction.osExit 1),
   ExecAction.callRemoveDriver] ++
  (if removeDriverResult then
    [ExecAction.sendQuit, ExecAction.stopAbortTimer]
  else
    [ExecAction.printRemoveFailed])

/-- A trace leaves the abort timer cancelled exactly when it contains a
`stopAbortTimer` action (`time.Timer.Stop`); otherwise an armed timer
stays armed and its callback will fire. -/
def abortTimerCancelled (tr : List ExecAction) : Bool :=
  tr.contains ExecAction.stopAbortTimer

/-- The callbacks of the timers armed along an executor trace. -/
def armedTimerActions (tr : List ExecAction) : List TimerAction :=
  tr.filterMap fun a =>
    match a with
    | ExecAction.armAbortTimer _ act => some act
    | _ => none

/-- Externally visible steps of one device insert/removal cycle, the
default branch of the outer monitor loop (src/api.go lines 225-264). -/
inductive CycleAction
  | waitDevicePresent
  | spawnRemovalWatcher
  | callAddDriver
  | spawnRemovalExecutor
  | runEventLoop
deriving Repr, DecidableEq

/-- One device insert/removal cycle (src/api.go lines 225-264): wait for
the device, spawn the removal watcher, call `addDriver`, spawn the
removal executor, run the event loop.  The boolean status returned by
`C.addDriver` is passed in but, exactly as at src/api.go line 242 where
the call appears as a bare statement, never inspected. -/
def sessionCycle (addDriverResult : Bool) : List CycleAction :=
  [CycleAction.waitDevicePresent,
   CycleAction.spawnRemovalWatcher,
   CycleAction.callAddDriver,
   CycleAction.spawnRemovalExecutor,
   CycleAction.runEventLoop]

/-- One iteration of the outer monitor loop (src/api.go lines 221-266):
if a value is pending on signalRaised it is received into `done` and no
cycle runs this iteration; otherwise the default branch runs one
insert/removal cycle and `done` stays false.  Result: the new value of
`done`, and the cycle actions performed. -/
def outerLoopSelect (signalRaisedPending : Option Bool)
    (addDriverResult : Bool) : Bool × List CycleAction :=
  match signalRaisedPending with
  | some v => (v, [])
  | none => (false, sessionCycle addDriverResult)

/-- The value the monitor goroutine sends on the exit channel when its
loop finishes (src/api.go line 268: `exit <- 1`). -/
def monitorLoopExitValue : Nat := 1

/-- Steps the main goroutine performs after the first OS signal
(src/api.go lines 276-283). -/
inductive MainAction
  | sendStartQuit
  | sendSignalRaised
  | armShutdownTimer (seconds : Nat) (action : TimerAction)
deriving Repr, DecidableEq

/-- Callback of the shutdown abort timer (src/api.go lines 280-283): it
sends 1 on the exit channel. -/
def shutdownTimerAction : TimerAction :=
  TimerAction.raiseExit 1

/-- The main goroutine after receiving the first OS signal (src/api.go
lines 276-283), in program order: send true on startQuit, send true on
signalRaised, arm a 5-second timer whose callback raises exit with 1. -/
def mainAfterFirstSignal : List MainAction :=
  [MainAction.sendStartQuit,
   MainAction.sendSignalRaised,
   MainAction.armShutdownTimer 5 shutdownTimerAction]

/-- The callbacks of the timers armed along the main goroutine trace. -/
def mainArmedTimerActions (tr : List MainAction) : List TimerAction :=
  tr.filterMap fun a =>
    match a with
    | MainAction.armShutdownTimer _ act => some act
    | _ => none

/-- An event that can wake the final select (src/api.go lines 285-295):
a value arriving on the exit channel, or a second OS signal. -/
inductive WaitEvent
  | exitValue (rc : Nat)
  | secondSignal
deriving Repr, DecidableEq

/-- One arm of the final select (src/api.go lines 285-295): an exit
value rc makes Run return rc; a second OS signal makes Run return 1. -/
def waitLoopStep : WaitEvent → Nat
  | WaitEvent.exitValue rc => rc
  | WaitEvent.secondSignal => 1

/-- The final wait loop (src/api.go lines 285-295): both select arms
return, so Run returns on the first event that arrives, ignoring any
later ones; with no event it blocks forever (`none`). -/
def waitLoop (events : List WaitEvent) : Option Nat :=
  match events with
  | [] => none
  | e :: _ => some (waitLoopStep e)

/-- Capacity of the signals channel (src/api.go line 157). -/
def signalsCapacity : Nat := 1

/-- Capacity of the startQuit channel (src/api.go line 158). -/
def startQuitCapacity : Nat := 2

/-- Capacity of the signalRaised channel (src/api.go line 159). -/
def signalRaisedCapacity : Nat := 1

/-- Capacity of the exit channel (src/api.go line 160). -/
def exitCapacity : Nat := 1

/-- A buffered Go channel: a send completes without blocking exactly
when the buffer is not full; the channel is never closed anywhere in
src/api.go, so no send can panic. -/
structure BufChan where
  capacity : Nat
  buffered : Nat
deriving Repr, DecidableEq

/-- A non-blocking buffered send: succeeds, adding to the buffer, when
the buffer has room; `none` means the sender would block. -/
def BufChan.trySend (c : BufChan) : Option BufChan :=
  if c.buffered < c.capacity then some { c with buffered := c.buffered + 1 }
  else none

/-- The Phase0 configuration operations that can be applied to an api
value between BuildAPI and Run (src/api.go lines 66-71). -/
inductive Phase0Op
  | addIntOption (option : String) (value : Int)
  | addBoolOption (option : String) (value : Bool)
  | setDriver (device : String)
deriving Repr

/-- Apply one Phase0 operation. -/
def applyOp (a : api) : Phase0Op → api
  | Phase0Op.addIntOption o v => a.AddIntOption o v
  | Phase0Op.addBoolOption o v => a.AddBoolOption o v
  | Phase0Op.setDriver d => a.SetDriver d

/-- Apply a sequence of Phase0 operations in order. -/
def applyOps (a : api) (ops : List Phase0Op) : api :=
  ops.foldl applyOp a

/-- Helper: a single Phase0 operation never changes the notifications
channel, the quit channel, or the options handle. -/
theorem applyOp_preserves_channels (a : api) (op : Phase0Op) :
    (applyOp a op).notifications = a.notifications ∧
    (applyOp a op).quit = a.quit := by
  cases op with
  | addIntOption o v => exact ⟨rfl, rfl⟩
  | addBoolOption o v => exact ⟨rfl, rfl⟩
  | setDriver d =>
    simp only [applyOp, api.SetDriver]
    split
    · exact ⟨rfl, rfl⟩
    · exact ⟨rfl, rfl⟩

/-- Helper: a sequence of Phase0 operations never changes the
notifications channel or the quit channel. -/
theorem applyOps_preserves_channels (ops : List Phase0Op) :
    ∀ a : api, (applyOps a ops).notifications = a.notifications ∧
      (applyOps a ops).quit = a.quit := by
  induction ops with
  | nil => intro a; exact ⟨rfl, rfl⟩
  | cons op rest ih =>
    intro a
    have h := ih (applyOp a op)
    have hop := applyOp_preserves_channels a op
    exact ⟨h.1.trans hop.1, h.2.trans hop.2⟩

/-- C1 counterexample: with a stop signal pending on signalRaised and no
session active, the outer loop exits without cycle actions, the monitor
goroutine sends 1 (not 0) on the exit channel, and Run therefore
returns status 1, refuting the claimed status 0 for this graceful
path. -/
theorem run_graceful_path_status_not_zero :
    (outerLoopSelect (some true) false).2 = [] ∧
    monitorLoopExitValue ≠ 0 ∧
    waitLoopStep (WaitEvent.exitValue monitorLoopExitValue) ≠ 0 := by
  exact ⟨rfl, by decide, by decide⟩

/-- C1 amended: when a stop signal is raised while no session is active,
Run terminates without starting a new session, but with process status
1, not 0; indeed every completion path of Run yields status 1 — the
graceful monitor-loop exit sends 1, the shutdown abort timer sends 1,
and the second-signal path returns 1. -/
theorem run_stop_no_session_status_one :
    (∀ r : Bool, outerLoopSelect (some true) r = (true, [])) ∧
    waitLoopStep (WaitEvent.exitValue monitorLoopExitValue) = 1 ∧
    mainArmedTimerActions mainAfterFirstSignal = [TimerAction.raiseExit 1] ∧
    waitLoopStep (WaitEvent.exitValue 1) = 1 ∧
    waitLoopStep WaitEvent.secondSignal = 1 := by
  exact ⟨fun r => rfl, rfl, rfl, rfl, rfl⟩

/-- C3: the removal executor first receives from startQuit, then arms a
5-second abort timer whose callback is os.Exit(1) — an unconditional
process termination with non-zero status — and only then calls
removeDriver; on success its trace contains both the quit-channel send
and the timer cancellation; on failure it performs neither, leaving the
abort timer armed. -/
theorem removalExecutor_abort_protocol :
    (∀ r : Bool,
      armedTimerActions (removalExecutor r) = [TimerAction.osExit 1] ∧
      (removalExecutor r).indexOf ExecAction.recvStartQuit <
        (removalExecutor r).indexOf
          (ExecAction.armAbortTimer 5 (TimerAction.osExit 1)) ∧
      (removalExecutor r).indexOf
          (ExecAction.armAbortTimer 5 (TimerAction.osExit 1)) <
        (removalExecutor r).indexOf ExecAction.callRemoveDriver) ∧
    abortTimerCancelled (removalExecutor true) = true ∧
    (removalExecutor true).contains ExecAction.sendQuit = true ∧
    abortTimerCancelled (removalExecutor false) = false ∧
    (removalExecutor false).contains ExecAction.sendQuit = false := by
  decide

/-- C4: if the event that wakes the final select is a second OS signal,
Run returns 1 at once: the wait loop returns on that very event, and any
later events (a pending exit value, the graceful-window timer) are never
consulted. -/
theorem waitLoop_second_signal_immediate :
    (∀ rest : List WaitEvent,
      waitLoop (WaitEvent.secondSignal :: rest) = some 1) ∧
    waitLoopStep WaitEvent.secondSignal = 1 := by
  exact ⟨fun rest => rfl, rfl⟩

/-- C5: after the first OS signal the main goroutine sends on startQuit
and then on signalRaised, and then arms a 5-second abort timer whose
callback raises 1 on the exit channel; if that timer fires before
anything else is raised on exit, the wait loop receives exit value 1 and
Run returns status 1. -/
theorem first_signal_shutdown_protocol :
    (mainAfterFirstSignal.contains MainAction.sendStartQuit = true) ∧
    (mainAfterFirstSignal.contains MainAction.sendSignalRaised = true) ∧
    mainAfterFirstSignal.indexOf MainAction.sendStartQuit <
      mainAfterFirstSignal.indexOf MainAction.sendSignalRaised ∧
    mainAfterFirstSignal.indexOf MainAction.sendSignalRaised <
      mainAfterFirstSignal.indexOf
        (MainAction.armShutdownTimer 5 shutdownTimerAction) ∧
    mainArmedTimerActions mainAfterFirstSignal = [TimerAction.raiseExit 1] ∧
    (∀ rest : List WaitEvent,
      waitLoop (WaitEvent.exitValue 1 :: rest) = some 1) := by
  refine ⟨by decide, by decide, by decide, by decide, rfl, fun rest => rfl⟩

/-- C6: the device-existence check classifies the device as absent
exactly when the stat call fails with a not-found error; a nil error or
any other error (permission, I/O) classifies it as present. -/
theorem deviceExists_absent_iff_notExist :
    ∀ statResult : Option StatError,
      deviceExists statResult = false ↔
        statResult = some StatError.notExist := by
  intro statResult
  cases statResult with
  | none => simp [deviceExists]
  | some e => cases e <;> simp [deviceExists]

/-- C7: BuildAPI establishes the configured default device identity;
SetDriver with the empty string leaves the api value unchanged, so the
identity stays at the default just after BuildAPI; SetDriver with a
non-empty string sets the identity to that string; and the only write
Run ever performs on the api value (storing the manager handle in the
monitor goroutine) preserves the device identity, which is therefore
constant for the supervisor's lifetime. -/
theorem setDriver_device_identity :
    (∀ cfg usr ovr fresh,
      (BuildAPI cfg usr ovr fresh).device = defaultDriverName) ∧
    (∀ a : api, a.SetDriver "" = a) ∧
    (∀ (a : api) (d : String), d ≠ "" → (a.SetDriver d).device = d) ∧
    (∀ (a : api) (m : Nat), (a.runMonitorStart m).device = a.device) := by
  refine ⟨fun cfg usr ovr fresh => rfl, fun a => rfl, ?_, fun a m => rfl⟩
  intro a d hd
  simp [api.SetDriver, hd]

/-- C7 witness: evaluated on a concrete api value and driver string. -/
theorem setDriver_device_identity_witness :
    (BuildAPI "cfg" "usr" "" 0).device = defaultDriverName ∧
    (("/dev/zw" : String) ≠ "") ∧
    ((BuildAPI "cfg" "usr" "" 0).SetDriver "/dev/zw").device = "/dev/zw" := by
  refine ⟨setDriver_device_identity.1 "cfg" "usr" "" 0, by decide, ?_⟩
  exact setDriver_device_identity.2.2.1 (BuildAPI "cfg" "usr" "" 0) "/dev/zw"
    (by decide)

/-- C8: the status returned by the collaborator's addDriver call is
never inspected — the cycle trace is the same function of everything
else whatever addDriver returns — and the cycle proceeds past the
addDriver call to run the event loop. -/
theorem addDriver_result_ignored :
    (∀ r₁ r₂ : Bool, sessionCycle r₁ = sessionCycle r₂) ∧
    (∀ r : Bool,
      (sessionCycle r).contains CycleAction.runEventLoop = true ∧
      (sessionCycle r).indexOf CycleAction.callAddDriver <
        (sessionCycle r).indexOf CycleAction.runEventLoop) := by
  exact ⟨fun r₁ r₂ => rfl, by decide⟩

/-- C9: each insert/removal cycle spawns exactly one removal executor,
whose trace contains exactly one receive from startQuit and exactly one
removeDriver teardown, however the quit request was raised; and since
the per-session raisers — the removal watcher (one send) and the OS
signal handler (one send) — number at most the channel's capacity of 2,
both raises complete without blocking from an empty buffer; the channel
is never closed in src/api.go, so no raise can panic. -/
theorem startQuit_single_receive_per_session :
    (∀ r : Bool,
      (sessionCycle r).count CycleAction.spawnRemovalExecutor = 1 ∧
      (removalExecutor r).count ExecAction.recvStartQuit = 1 ∧
      (removalExecutor r).count ExecAction.callRemoveDriver = 1) ∧
    (∀ c : BufChan, c.capacity = startQuitCapacity → c.buffered = 0 →
      (c.trySend.bind BufChan.trySend).isSome = true) := by
  constructor
  · decide
  · intro c hcap hbuf
    cases c
    simp_all [BufChan.trySend, startQuitCapacity]

/-- C9 witness: the channel as allocated at src/api.go line 158, with
both per-session raises succeeding, and the executor traces evaluated. -/
theorem startQuit_single_receive_per_session_witness :
    (removalExecutor true).count ExecAction.recvStartQuit = 1 ∧
    ((BufChan.mk 2 0).trySend.bind BufChan.trySend).isSome = true := by
  refine ⟨(startQuit_single_receive_per_session.1 true).2.1, ?_⟩
  exact startQuit_single_receive_per_session.2 (BufChan.mk 2 0) rfl rfl

/-- C10: the notifications channel returned by Notifications and the
quit channel returned by QuitSignal are exactly the two channels
allocated by BuildAPI; no sequence of AddIntOption, AddBoolOption or
SetDriver operations, nor Run's manager-handle store, ever replaces
them, so every phase and every copy of the api value shares the same two
channels. -/
theorem channels_stable_across_ops :
    ∀ (ops : List Phase0Op) (cfg usr ovr : String) (fresh m : Nat),
      (applyOps (BuildAPI cfg usr ovr fresh) ops).Notifications =
        (BuildAPI cfg usr ovr fresh).notifications ∧
      (applyOps (BuildAPI cfg usr ovr fresh) ops).QuitSignal =
        (BuildAPI cfg usr ovr fresh).quit ∧
      ((applyOps (BuildAPI cfg usr ovr fresh) ops).runMonitorStart
          m).Notifications = (BuildAPI cfg usr ovr fresh).notifications ∧
      ((applyOps (BuildAPI cfg usr ovr fresh) ops).runMonitorStart
          m).QuitSignal = (BuildAPI cfg usr ovr fresh).quit := by
  intro ops cfg usr ovr fresh m
  have h := applyOps_preserves_channels ops (BuildAPI cfg usr ovr fresh)
  exact ⟨h.1, h.2, h.1, h.2⟩
